import Mathlib

/-
  Verification development for the SDL driver of the Supermodel emulator
  (Src/OSD/SDL/Main.cpp).  The definitions below are a shallow embedding of
  the save/NVRAM container operations, the display geometry computation of
  CreateGLScreen, and the main loop of Supermodel().  Machine integers are
  modelled as Nat (tick wrap-around after 2^32 ms is out of scope for the
  properties considered here), and the 32-bit float arithmetic of
  CreateGLScreen and of the frame pacer is modelled as exact rational
  arithmetic with truncation at the unsigned casts.
-/

namespace SupermodelMain

/-! ## Persistent state container (Main.cpp lines 342-477) -/

/-- STATE_FILE_VERSION from Main.cpp line 356. -/
def stateFileVersion : Int := 1

/-- NVRAM_FILE_VERSION from Main.cpp line 357. -/
def nvramFileVersion : Int := 0

/-- A CBlockFile container as visible from Main.cpp: the set of block names
present in the file, the 4-byte format version stored after the top-level
block name, and the remaining body written by the machine collaborator,
abstracted into a single opaque payload number. -/
structure BlockFile where
  blockNames : List String
  version : Int
  payload : Nat
deriving DecidableEq

/-- Observation record of the external CModel3 collaborator (its sources are
not part of this driver).  It records the serializable machine state and the
in-memory NVRAM image as opaque payload numbers, plus counters of RunFrame
and Reset calls made by the driver. -/
structure Machine where
  state : Nat
  nvram : Nat
  framesRun : Nat
  resets : Nat
deriving DecidableEq

/-- CBlockFile.FindBlock: succeeds exactly when the named block is present. -/
def findBlock (f : BlockFile) (name : String) : Bool :=
  f.blockNames.contains name

/-- Outcome of one load operation: the machine afterwards, whether the
machine deserializer was invoked, and whether the file handle was opened
and closed during the operation. -/
structure FileOpResult where
  machine : Machine
  deserializerInvoked : Bool
  opened : Bool
  closed : Bool
deriving DecidableEq

/-- LoadState (Main.cpp lines 385-419).  The input is the container at the
current save path (none when CBlockFile.Load fails, in which case no handle
was obtained).  Modelled from the spec: CBlockFile itself is not under src/,
and on the early-return paths (block name not found, version mismatch) the
handle is closed by the CBlockFile destructor when the stack object goes out
of scope, per the handle-scoping rule of spec section 5; the success path
calls Close explicitly (line 416). -/
def loadStateOp (file : Option BlockFile) (m : Machine) : FileOpResult :=
  match file with
  | none => ⟨m, false, false, false⟩
  | some f =>
    if findBlock f "Supermodel Save State" = false then ⟨m, false, true, true⟩
    else if f.version ≠ stateFileVersion then ⟨m, false, true, true⟩
    else ⟨{ m with state := f.payload }, true, true, true⟩

/-- LoadNVRAM (Main.cpp lines 444-477); same structure as loadStateOp with
the NVRAM block name and version.  Modelled from the spec: the destructor
close on the two early-return paths, as in loadStateOp. -/
def loadNVRAMOp (file : Option BlockFile) (m : Machine) : FileOpResult :=
  match file with
  | none => ⟨m, false, false, false⟩
  | some f =>
    if findBlock f "Supermodel NVRAM State" = false then ⟨m, false, true, true⟩
    else if f.version ≠ nvramFileVersion then ⟨m, false, true, true⟩
    else ⟨{ m with nvram := f.payload }, true, true, true⟩

/-- The container written by SaveState (Main.cpp lines 361-383): top-level
block name, STATE_FILE_VERSION, and the machine body. -/
def stateFileOf (m : Machine) : BlockFile :=
  ⟨["Supermodel Save State"], stateFileVersion, m.state⟩

/-- The container written by SaveNVRAM (Main.cpp lines 421-442). -/
def nvramFileOf (m : Machine) : BlockFile :=
  ⟨["Supermodel NVRAM State"], nvramFileVersion, m.nvram⟩

/-- Outcome of one save operation: the file written (none when
CBlockFile.Create failed), and the handle lifecycle flags. -/
structure SaveOpResult where
  file : Option BlockFile
  opened : Bool
  closed : Bool
deriving DecidableEq

/-- SaveState (Main.cpp lines 361-383): on Create success the header and
body are written and Close is called (line 380); on Create failure the
operation returns with no handle. -/
def saveStateOp (createOK : Bool) (m : Machine) : SaveOpResult :=
  if createOK then ⟨some (stateFileOf m), true, true⟩ else ⟨none, false, false⟩

/-- SaveNVRAM (Main.cpp lines 421-442): same lifecycle as saveStateOp. -/
def saveNVRAMOp (createOK : Bool) (m : Machine) : SaveOpResult :=
  if createOK then ⟨some (nvramFileOf m), true, true⟩ else ⟨none, false, false⟩

/-! ## Display geometry (CreateGLScreen, Main.cpp lines 135-217) -/

/-- The fixed Model 3 reference aspect value 496/384 (line 168), as an exact
rational. -/
def refAspect : ℚ := 496 / 384

/-- The aspect-correction of CreateGLScreen (lines 163-174), with the float
locals xRes, yRes modelled as exact rationals.  Returns the resolved
(width, height) before the unsigned casts. -/
def fixAspect (keepAspect : Bool) (reqX reqY : ℕ) : ℚ × ℚ :=
  let xq : ℚ := reqX
  let yq : ℚ := reqY
  if keepAspect then
    let xq2 := if yq < xq / refAspect then yq * refAspect else xq
    let yq2 := if xq2 < yq * refAspect then xq2 / refAspect else yq
    (xq2, yq2)
  else (xq, yq)

/-- Resolved geometry returned through the pointer arguments of
CreateGLScreen. -/
structure Geometry where
  xOffset : ℕ
  yOffset : ℕ
  xRes : ℕ
  yRes : ℕ
deriving DecidableEq

/-- The geometry computation of CreateGLScreen (lines 161-214) for the case
in which surface creation succeeded: (curW, curH) is the actual display
resolution reported by SDL_GetVideoInfo.  The offsets center the resolved
rectangle in the requested canvas (lines 177-178) and, when the actual
display resolution exceeds the requested canvas, a second centering offset
is added (lines 181-184).  The unsigned casts truncate the nonnegative
rationals. -/
def createGLScreenGeometry (keepAspect : Bool) (reqX reqY curW curH : ℕ) :
    Geometry :=
  let p := fixAspect keepAspect reqX reqY
  let rx : ℕ := (⌊p.1⌋).toNat
  let ry : ℕ := (⌊p.2⌋).toNat
  let xOff0 := (reqX - rx) / 2
  let yOff0 := (reqY - ry) / 2
  let xOff := if reqX < curW then xOff0 + (curW - reqX) / 2 else xOff0
  let yOff := if reqY < curH then yOff0 + (curH - reqY) / 2 else yOff0
  ⟨xOff, yOff, rx, ry⟩

/-! ## Session state machine and main loop (Supermodel, Main.cpp 491-767) -/

/-- The ten UI commands dispatched by the else-if chain at lines 596-665. -/
inductive Cmd
  | exit
  | reset
  | togglePause
  | save
  | changeSlot
  | load
  | dumpInput
  | toggleCursor
  | clearNVRAM
  | toggleThrottle
deriving DecidableEq

/-- One-shot pressed edges of the UI controls polled in the loop body, in
the order the source tests them. -/
structure Edges where
  uiExit : Bool
  uiReset : Bool
  uiPause : Bool
  uiSaveState : Bool
  uiChangeSlot : Bool
  uiLoadState : Bool
  uiDumpInpState : Bool
  uiToggleCursor : Bool
  uiClearNVRAM : Bool
  uiToggleFrLimit : Bool
deriving DecidableEq

/-- No edge asserted. -/
def noEdges : Edges :=
  ⟨false, false, false, false, false, false, false, false, false, false⟩

/-- The else-if chain of lines 596-665: the first asserted edge selects the
command; the ToggleCursor arm is additionally guarded by the fullscreen
flag (line 648). -/
def selectCmd (e : Edges) (fullScreen : Bool) : Option Cmd :=
  if e.uiExit then some .exit
  else if e.uiReset then some .reset
  else if e.uiPause then some .togglePause
  else if e.uiSaveState then some .save
  else if e.uiChangeSlot then some .changeSlot
  else if e.uiLoadState then some .load
  else if e.uiDumpInpState then some .dumpInput
  else if e.uiToggleCursor && fullScreen then some .toggleCursor
  else if e.uiClearNVRAM then some .clearNVRAM
  else if e.uiToggleFrLimit then some .toggleThrottle
  else none

/-- The priority order of spec section 4.2 step 3, written as the ordered
list of (edge, command) pairs it prescribes; used to compare the if-chain
of the source against the spec wording. -/
def cmdTable (e : Edges) (fullScreen : Bool) : List (Bool × Cmd) :=
  [(e.uiExit, .exit), (e.uiReset, .reset), (e.uiPause, .togglePause),
   (e.uiSaveState, .save), (e.uiChangeSlot, .changeSlot),
   (e.uiLoadState, .load), (e.uiDumpInpState, .dumpInput),
   (e.uiToggleCursor && fullScreen, .toggleCursor),
   (e.uiClearNVRAM, .clearNVRAM), (e.uiToggleFrLimit, .toggleThrottle)]

/-- Model3 RunFrame: advances one emulated frame (external collaborator;
observed as a counter increment). -/
def runFrame (m : Machine) : Machine :=
  { m with framesRun := m.framesRun + 1 }

/-- Model3 Reset (external collaborator; observed as a counter increment). -/
def resetMachine (m : Machine) : Machine :=
  { m with resets := m.resets + 1 }

/-- Model3 ClearNVRAM: erases the in-memory NVRAM image. -/
def clearNVRAMMachine (m : Machine) : Machine :=
  { m with nvram := 0 }

/-- The mutable state of the Supermodel() loop: the locals quit, paused,
showCursor and the FPS/pacing counters of lines 495-502 and 562-565, the
throttle and display flags of g_Config, the static saveSlot, the machine
observation record, the slot-indexed save files on disk, and event counters
(NVRAM file writes, input-state dumps, buffer swaps, caption updates, the
last displayed FPS value and the last pacing delay) that make the loop
effects observable. -/
structure EmuState where
  quit : Bool
  paused : Bool
  showCursor : Bool
  throttle : Bool
  showFPS : Bool
  fullScreen : Bool
  saveSlot : ℕ
  machine : Machine
  saveFiles : ℕ → Option BlockFile
  nvramWrites : ℕ
  inputDumps : ℕ
  buffersSwapped : ℕ
  fpsFramesElapsed : ℕ
  prevFPSTicks : ℕ
  lastFPS : Option ℚ
  captionUpdates : ℕ
  framesElapsed : ℕ
  startTicks : ℕ
  lastDelay : Option ℕ

/-- The ChangeSlot slot update of lines 628-629: increment, then clamp to
[0,9] by taking the remainder mod 10. -/
def nextSlot (v : ℕ) : ℕ := (v + 1) % 10

/-- Effect of the command selected by the chain (lines 597-665).  createOK
is whether CBlockFile.Create succeeds for the SaveState arm. -/
def applyCmd (createOK : Bool) (c : Cmd) (s : EmuState) : EmuState :=
  match c with
  | .exit => { s with quit := true }
  | .reset => { s with machine := resetMachine s.machine }
  | .togglePause => { s with paused := !s.paused }
  | .save =>
      if createOK then
        { s with saveFiles := fun n =>
            if n = s.saveSlot then some (stateFileOf s.machine)
            else s.saveFiles n }
      else s
  | .changeSlot => { s with saveSlot := (s.saveSlot + 1) % 10 }
  | .load =>
      { s with machine := (loadStateOp (s.saveFiles s.saveSlot) s.machine).machine }
  | .dumpInput => { s with inputDumps := s.inputDumps + 1 }
  | .toggleCursor => { s with showCursor := !s.showCursor }
  | .clearNVRAM => { s with machine := clearNVRAMMachine s.machine }
  | .toggleThrottle => { s with throttle := !s.throttle }

/-- Environment inputs consumed by one loop iteration: the UI edges, the
result of Inputs Poll, whether a CBlockFile.Create issued this iteration
would succeed, and the SDL_GetTicks value read at line 677. -/
structure IterInput where
  edges : Edges
  pollOK : Bool
  createOK : Bool
  ticks : ℕ

/-- Lines 569-576: when not paused, run one emulated frame and swap the
buffers. -/
def phaseFrame (s : EmuState) : EmuState :=
  if s.paused then s
  else { s with machine := runFrame s.machine,
                buffersSwapped := s.buffersSwapped + 1 }

/-- Lines 579-580: a failed input poll forces quit. -/
def phasePoll (pollOK : Bool) (s : EmuState) : EmuState :=
  if pollOK then s else { s with quit := true }

/-- Lines 596-665: apply the command selected by the chain, if any. -/
def phaseCmd (e : Edges) (createOK : Bool) (s : EmuState) : EmuState :=
  match selectCmd e s.fullScreen with
  | some c => applyCmd createOK c s
  | none => s

/-- The FPS caption formula of line 686, with the floats modelled as exact
rationals: frames times elapsed milliseconds divided by 1000. -/
def fpsRate (frames elapsed : ℕ) : ℚ :=
  (frames : ℚ) * (elapsed : ℚ) / 1000

/-- Lines 681-691: when FPS display is enabled, count this iteration; once
at least 1000 ms have elapsed since the previous sample, display the rate
and reset both the sample tick and the frame counter. -/
def phaseFPS (t : ℕ) (s : EmuState) : EmuState :=
  if s.showFPS then
    let fe := s.fpsFramesElapsed + 1
    if 1000 ≤ t - s.prevFPSTicks then
      { s with lastFPS := some (fpsRate fe (t - s.prevFPSTicks)),
               captionUpdates := s.captionUpdates + 1,
               prevFPSTicks := t,
               fpsFramesElapsed := 0 }
    else { s with fpsFramesElapsed := fe }
  else s

/-- The target tick of line 697: startTicks plus framesElapsed frames at
1000/60 ms per frame, the float product truncated by the unsigned cast. -/
def frameTarget (startTicks framesElapsed : ℕ) : ℕ :=
  startTicks + framesElapsed * 1000 / 60

/-- Lines 694-705: when paused or throttled, either block until the target
tick of the incremented frame counter, or, having overshot it, reset the
pacing epoch to the current tick and zero the frame counter. -/
def phasePace (t : ℕ) (s : EmuState) : EmuState :=
  if s.paused || s.throttle then
    let fe := s.framesElapsed + 1
    let target := frameTarget s.startTicks fe
    if t ≤ target then
      { s with framesElapsed := fe, lastDelay := some (target - t) }
    else
      { s with framesElapsed := 0, startTicks := t, lastDelay := none }
  else { s with lastDelay := none }

/-- One iteration of the while loop of lines 566-706, in source order:
frame+swap, input poll, command dispatch, FPS display, pacing. -/
def step (s : EmuState) (i : IterInput) : EmuState :=
  phasePace i.ticks (phaseFPS i.ticks (phaseCmd i.edges i.createOK
    (phasePoll i.pollOK (phaseFrame s))))

/-- Run the loop over a finite input script; the loop condition (line 566)
stops iterating once quit is set. -/
def run (s : EmuState) : List IterInput → EmuState
  | [] => s
  | i :: rest => if s.quit then s else run (step s i) rest

/-- The loop state on entry (lines 500-502, 562-565): Running, cursor
hidden, counters zeroed, both tick references set to the entry tick. -/
def initialLoopState (throttle showFPS fullScreen : Bool) (slot : ℕ)
    (m : Machine) (files : ℕ → Option BlockFile) (t0 : ℕ) : EmuState :=
  { quit := false, paused := false, showCursor := false, throttle := throttle,
    showFPS := showFPS, fullScreen := fullScreen, saveSlot := slot,
    machine := m, saveFiles := files, nvramWrites := 0, inputDumps := 0,
    buffersSwapped := 0, fpsFramesElapsed := 0, prevFPSTicks := t0,
    lastFPS := none, captionUpdates := 0, framesElapsed := 0,
    startTicks := t0, lastDelay := none }

/-! ## The session driver (Supermodel, lines 491-767) -/

/-- Success of each fallible initialization step of Supermodel(), in source
order: Model3 Init (510), LoadROMSet (512), CreateGLScreen (528),
OpenAudio (532), Render2D Init (542), Render3D Init (544). -/
structure InitOutcomes where
  model3InitOK : Bool
  loadROMOK : Bool
  createGLOK : Bool
  openAudioOK : Bool
  render2DInitOK : Bool
  render3DInitOK : Bool
deriving DecidableEq

/-- Resource effects observed over one Supermodel() call: how many times
the NVRAM file was saved, whether the audio subsystem was opened and
closed, whether the two renderer objects were deleted, and the return
value. -/
structure SessionEffects where
  nvramSaves : ℕ
  audioOpened : Bool
  audioClosed : Bool
  render2DDeleted : Bool
  render3DDeleted : Bool
  exitCode : ℕ
deriving DecidableEq

/-- The Supermodel() driver (lines 491-767), non-debugger build.  Early
initialization failures return 1 directly (lines 511, 513, 529, 533)
without saving NVRAM, closing audio or deleting the renderers; a renderer
Init failure jumps to QuitError (lines 543, 545, 760-766), which deletes
the renderers but neither saves NVRAM nor closes audio; otherwise the loop
runs over the script and, once quit is set, NVRAM is saved (line 718),
audio closed (721) and the renderers deleted (727-728).  The result is
none when the script ends before quit is set (the session is still
running). -/
def supermodelDriver (throttle showFPS fullScreen : Bool)
    (init : InitOutcomes) (nvramFile : Option BlockFile)
    (files : ℕ → Option BlockFile) (t0 : ℕ) (script : List IterInput) :
    Option SessionEffects :=
  if init.model3InitOK = false then some ⟨0, false, false, false, false, 1⟩
  else if init.loadROMOK = false then some ⟨0, false, false, false, false, 1⟩
  else
    let m1 := (loadNVRAMOp nvramFile ⟨0, 0, 0, 0⟩).machine
    if init.createGLOK = false then some ⟨0, false, false, false, false, 1⟩
    else if init.openAudioOK = false then some ⟨0, false, false, false, false, 1⟩
    else if init.render2DInitOK = false then some ⟨0, true, false, true, true, 1⟩
    else if init.render3DInitOK = false then some ⟨0, true, false, true, true, 1⟩
    else
      let sf := run (initialLoopState throttle showFPS fullScreen 0
        (resetMachine m1) files t0) script
      if sf.quit then some ⟨sf.nvramWrites + 1, true, true, true, true, 0⟩
      else none

/-! ## Concrete sample inputs used by scenario theorems and witnesses -/

/-- An iteration with the given edges and no other activity. -/
def edgeInput (e : Edges) : IterInput := ⟨e, true, true, 0⟩

/-- An iteration asserting only the Exit edge. -/
def exitInput : IterInput := edgeInput { noEdges with uiExit := true }

/-- A sample loop state used to instantiate universally quantified
theorems in their witnesses. -/
def sampleState : EmuState :=
  initialLoopState false false false 0 ⟨0, 0, 0, 0⟩ (fun _ => none) 0

/-- A sample machine. -/
def sampleMachine : Machine := ⟨42, 7, 0, 0⟩

/-- A sample loop state with the throttle enabled. -/
def sampleThrottled : EmuState :=
  initialLoopState true false false 0 ⟨0, 0, 0, 0⟩ (fun _ => none) 0

/-- A sample loop state with FPS display enabled. -/
def sampleFPSState : EmuState :=
  initialLoopState false true false 0 ⟨0, 0, 0, 0⟩ (fun _ => none) 0

/-- A sample loop state that is Paused with FPS display enabled. -/
def samplePausedFPS : EmuState :=
  { initialLoopState false true false 0 ⟨0, 0, 0, 0⟩ (fun _ => none) 0 with
    paused := true }

/-- A well-formed save container whose version does not match
STATE_FILE_VERSION. -/
def staleStateFile : BlockFile := ⟨["Supermodel Save State"], 2, 5⟩

/-- A container lacking the expected NVRAM top-level block. -/
def wrongNameNVRAMFile : BlockFile := ⟨["Something Else"], 0, 5⟩

/-- Initial state of the slot scenario of claim C6: machine payload 42,
slot 0, and a pre-existing valid save container with payload 99 in slot 0. -/
def slotScenarioStart : EmuState :=
  initialLoopState false false false 0 ⟨42, 0, 0, 0⟩
    (fun n => if n = 0 then some ⟨["Supermodel Save State"], 1, 99⟩ else none) 0

/-- The slot scenario script: three ChangeSlot presses (slot 0 to 3), a
SaveState, seven further ChangeSlot presses (slot 3 to 0), one LoadState. -/
def slotScenarioScript : List IterInput :=
  List.replicate 3 (edgeInput { noEdges with uiChangeSlot := true }) ++
  [edgeInput { noEdges with uiSaveState := true }] ++
  List.replicate 7 (edgeInput { noEdges with uiChangeSlot := true }) ++
  [edgeInput { noEdges with uiLoadState := true }]

/-! ## Helper lemmas: geometry -/

theorem refAspect_pos : 0 < refAspect := by norm_num [refAspect]

theorem fixAspect_eq (x y : ℕ) :
    fixAspect true x y =
      if (y : ℚ) < (x : ℚ) / refAspect then ((y : ℚ) * refAspect, (y : ℚ))
      else if (x : ℚ) < (y : ℚ) * refAspect then ((x : ℚ), (x : ℚ) / refAspect)
      else ((x : ℚ), (y : ℚ)) := by
  unfold fixAspect
  by_cases h1 : (y : ℚ) < (x : ℚ) / refAspect
  · simp only [h1, if_true, lt_self_iff_false, if_false]
  · by_cases h2 : (x : ℚ) < (y : ℚ) * refAspect <;>
      simp only [h1, h2, if_false, if_true]

theorem fixAspect_ratio (x y : ℕ) :
    (fixAspect true x y).1 * 384 = (fixAspect true x y).2 * 496 := by
  rw [fixAspect_eq]
  split_ifs with h1 h2
  · rw [refAspect]; ring
  · rw [refAspect]; field_simp
  · have ha : (x : ℚ) / refAspect ≤ y := not_lt.mp h1
    have hb : (y : ℚ) * refAspect ≤ x := not_lt.mp h2
    have hx : (x : ℚ) ≤ y * refAspect := (div_le_iff₀ refAspect_pos).mp ha
    have hxy : (x : ℚ) = y * refAspect := le_antisymm hx hb
    rw [hxy, refAspect]; ring

theorem fixAspect_fst_le (x y : ℕ) : (fixAspect true x y).1 ≤ (x : ℚ) := by
  rw [fixAspect_eq]
  split_ifs with h1 h2
  · exact le_of_lt ((lt_div_iff₀ refAspect_pos).mp h1)
  · exact le_refl _
  · exact le_refl _

theorem fixAspect_snd_le (x y : ℕ) : (fixAspect true x y).2 ≤ (y : ℚ) := by
  rw [fixAspect_eq]
  split_ifs with h1 h2
  · exact le_refl _
  · exact not_lt.mp h1
  · exact le_refl _

theorem fixAspect_fst_nonneg (x y : ℕ) : 0 ≤ (fixAspect true x y).1 := by
  rw [fixAspect_eq]
  split_ifs with h1 h2
  · exact mul_nonneg (Nat.cast_nonneg y) (le_of_lt refAspect_pos)
  · exact Nat.cast_nonneg x
  · exact Nat.cast_nonneg x

theorem fixAspect_snd_nonneg (x y : ℕ) : 0 ≤ (fixAspect true x y).2 := by
  rw [fixAspect_eq]
  split_ifs with h1 h2
  · exact Nat.cast_nonneg y
  · exact div_nonneg (Nat.cast_nonneg x) (le_of_lt refAspect_pos)
  · exact Nat.cast_nonneg y

theorem floorToNat_le (q : ℚ) (n : ℕ) (hq : 0 ≤ q) (h : q ≤ (n : ℚ)) :
    (⌊q⌋).toNat ≤ n := by
  have h1 : ((⌊q⌋).toNat : ℤ) = ⌊q⌋ :=
    Int.toNat_of_nonneg (Int.floor_nonneg.mpr hq)
  have h2 : (((⌊q⌋).toNat : ℤ) : ℚ) ≤ (n : ℚ) := by
    rw [h1]; exact le_trans (Int.floor_le q) h
  exact_mod_cast h2

theorem floorToNat_lb (q : ℚ) (hq : 0 ≤ q) : ((⌊q⌋).toNat : ℚ) ≤ q := by
  have h1 : ((⌊q⌋).toNat : ℤ) = ⌊q⌋ :=
    Int.toNat_of_nonneg (Int.floor_nonneg.mpr hq)
  have h2 : (((⌊q⌋).toNat : ℤ) : ℚ) ≤ q := by rw [h1]; exact Int.floor_le q
  exact_mod_cast h2

theorem floorToNat_ub (q : ℚ) (hq : 0 ≤ q) : q < ((⌊q⌋).toNat : ℚ) + 1 := by
  have h1 : ((⌊q⌋).toNat : ℤ) = ⌊q⌋ :=
    Int.toNat_of_nonneg (Int.floor_nonneg.mpr hq)
  have h2 : q < (((⌊q⌋).toNat : ℤ) : ℚ) + 1 := by
    rw [h1]; exact Int.lt_floor_add_one q
  exact_mod_cast h2

/-! ## Claim C2 -/

/-- Claim C2: a LoadState or LoadNVRAM operation whose expected top-level
block name is absent, or whose 4-byte format version differs from the
version expected by the build, returns without invoking the machine
deserializers and leaves the machine state bit-for-bit unchanged. -/
theorem c2_header_failure_leaves_machine_untouched (f : BlockFile) (m : Machine) :
    ((findBlock f "Supermodel Save State" = false ∨ f.version ≠ stateFileVersion) →
      (loadStateOp (some f) m).machine = m ∧
      (loadStateOp (some f) m).deserializerInvoked = false) ∧
    ((findBlock f "Supermodel NVRAM State" = false ∨ f.version ≠ nvramFileVersion) →
      (loadNVRAMOp (some f) m).machine = m ∧
      (loadNVRAMOp (some f) m).deserializerInvoked = false) := by
  constructor
  · intro h
    unfold loadStateOp
    by_cases hb : findBlock f "Supermodel Save State" = false
    · simp [hb]
    · rcases h with h | h
      · exact absurd h hb
      · simp [hb, h]
  · intro h
    unfold loadNVRAMOp
    by_cases hb : findBlock f "Supermodel NVRAM State" = false
    · simp [hb]
    · rcases h with h | h
      · exact absurd h hb
      · simp [hb, h]

theorem c2_witness :
    ((findBlock staleStateFile "Supermodel Save State" = false ∨
        staleStateFile.version ≠ stateFileVersion) ∧
      (loadStateOp (some staleStateFile) sampleMachine).machine = sampleMachine ∧
      (loadStateOp (some staleStateFile) sampleMachine).deserializerInvoked = false) ∧
    ((findBlock wrongNameNVRAMFile "Supermodel NVRAM State" = false ∨
        wrongNameNVRAMFile.version ≠ nvramFileVersion) ∧
      (loadNVRAMOp (some wrongNameNVRAMFile) sampleMachine).machine = sampleMachine ∧
      (loadNVRAMOp (some wrongNameNVRAMFile) sampleMachine).deserializerInvoked = false) :=
  ⟨⟨Or.inr (by decide),
    (c2_header_failure_leaves_machine_untouched staleStateFile sampleMachine).1
      (Or.inr (by decide))⟩,
   ⟨Or.inl (by decide),
    (c2_header_failure_leaves_machine_untouched wrongNameNVRAMFile sampleMachine).2
      (Or.inl (by decide))⟩⟩

/-! ## Claim C9 -/

/-- Claim C9: every save/load/NVRAM operation that obtains a container file
handle closes it before the operation returns, including the LoadState and
LoadNVRAM paths that fail the block-name or format-version check. -/
theorem c9_handle_closed_per_operation (f : Option BlockFile) (m : Machine) (k : Bool) :
    ((loadStateOp f m).opened = true → (loadStateOp f m).closed = true) ∧
    ((loadNVRAMOp f m).opened = true → (loadNVRAMOp f m).closed = true) ∧
    ((saveStateOp k m).opened = true → (saveStateOp k m).closed = true) ∧
    ((saveNVRAMOp k m).opened = true → (saveNVRAMOp k m).closed = true) := by
  refine ⟨?_, ?_, ?_, ?_⟩
  · cases f with
    | none => intro h; exact h
    | some g =>
      unfold loadStateOp
      dsimp only
      split_ifs <;> intro _ <;> rfl
  · cases f with
    | none => intro h; exact h
    | some g =>
      unfold loadNVRAMOp
      dsimp only
      split_ifs <;> intro _ <;> rfl
  · cases k <;> intro h <;> exact h
  · cases k <;> intro h <;> exact h

theorem c9_witness :
    (loadStateOp (some staleStateFile) sampleMachine).opened = true ∧
    (loadStateOp (some staleStateFile) sampleMachine).closed = true :=
  ⟨by decide,
   (c9_handle_closed_per_operation (some staleStateFile) sampleMachine true).1
     (by decide)⟩

/-! ## Claim C3 -/

theorem fixAspect_496_384 :
    fixAspect true 496 384 = (((496 : ℕ) : ℚ), ((384 : ℕ) : ℚ)) := by
  unfold fixAspect
  norm_num [refAspect]

/-- Claim C3 counterexample: for the aspect-preserving request 496 x 384 on
an actual 1920 x 1080 display, the second centering offset of lines 181-184
makes xOffset + xRes equal to 1208, which exceeds the requested width 496,
so offset + resolved is not bounded by the requested size on the x axis. -/
theorem c3_counterexample :
    (createGLScreenGeometry true 496 384 1920 1080).xOffset +
      (createGLScreenGeometry true 496 384 1920 1080).xRes = 1208 ∧
    496 < 1208 := by
  constructor
  · have h : createGLScreenGeometry true 496 384 1920 1080 =
        ⟨712, 348, 496, 384⟩ := by
      unfold createGLScreenGeometry
      rw [fixAspect_496_384]
      norm_num
      exact ⟨rfl, rfl⟩
    rw [h]
    rfl
  · norm_num

/-- Claim C3 (amended): for every aspect-preserving request for which
surface creation succeeds and whose actual display resolution does not
exceed the requested canvas, the resolved size matches the 496/384
reference proportion within integer rounding, and offset + resolved is at
most the request on both axes. -/
theorem c3_aspect_and_offsets (reqX reqY curW curH : ℕ)
    (hw : curW ≤ reqX) (hh : curH ≤ reqY) :
    (((createGLScreenGeometry true reqX reqY curW curH).xRes : ℤ) * 384 -
      ((createGLScreenGeometry true reqX reqY curW curH).yRes : ℤ) * 496).natAbs < 496 ∧
    (createGLScreenGeometry true reqX reqY curW curH).xOffset +
      (createGLScreenGeometry true reqX reqY curW curH).xRes ≤ reqX ∧
    (createGLScreenGeometry true reqX reqY curW curH).yOffset +
      (createGLScreenGeometry true reqX reqY curW curH).yRes ≤ reqY := by
  have hW : ¬ (reqX < curW) := Nat.not_lt.mpr hw
  have hH : ¬ (reqY < curH) := Nat.not_lt.mpr hh
  have hgeo : createGLScreenGeometry true reqX reqY curW curH =
      ⟨(reqX - (⌊(fixAspect true reqX reqY).1⌋).toNat) / 2,
       (reqY - (⌊(fixAspect true reqX reqY).2⌋).toNat) / 2,
       (⌊(fixAspect true reqX reqY).1⌋).toNat,
       (⌊(fixAspect true reqX reqY).2⌋).toNat⟩ := by
    unfold createGLScreenGeometry
    simp only [hW, hH, if_false]
  rw [hgeo]
  dsimp only
  have h0x := fixAspect_fst_nonneg reqX reqY
  have h0y := fixAspect_snd_nonneg reqX reqY
  have hlex := fixAspect_fst_le reqX reqY
  have hley := fixAspect_snd_le reqX reqY
  have hratio := fixAspect_ratio reqX reqY
  have hrxn : (⌊(fixAspect true reqX reqY).1⌋).toNat ≤ reqX :=
    floorToNat_le _ _ h0x hlex
  have hryn : (⌊(fixAspect true reqX reqY).2⌋).toNat ≤ reqY :=
    floorToNat_le _ _ h0y hley
  refine ⟨?_, ?_, ?_⟩
  · have hq1 : ((⌊(fixAspect true reqX reqY).1⌋.toNat : ℚ)) * 384 -
        ((⌊(fixAspect true reqX reqY).2⌋.toNat : ℚ)) * 496 < 496 := by
      have l1 := floorToNat_lb _ h0x
      have u2 := floorToNat_ub _ h0y
      nlinarith [l1, u2, hratio]
    have hq2 : ((⌊(fixAspect true reqX reqY).2⌋.toNat : ℚ)) * 496 -
        ((⌊(fixAspect true reqX reqY).1⌋.toNat : ℚ)) * 384 < 384 := by
      have l2 := floorToNat_lb _ h0y
      have u1 := floorToNat_ub _ h0x
      nlinarith [l2, u1, hratio]
    have hz1 : ((⌊(fixAspect true reqX reqY).1⌋.toNat : ℤ)) * 384 -
        ((⌊(fixAspect true reqX reqY).2⌋.toNat : ℤ)) * 496 < 496 := by
      exact_mod_cast hq1
    have hz2 : ((⌊(fixAspect true reqX reqY).2⌋.toNat : ℤ)) * 496 -
        ((⌊(fixAspect true reqX reqY).1⌋.toNat : ℤ)) * 384 < 384 := by
      exact_mod_cast hq2
    omega
  · omega
  · omega

theorem c3_witness :
    (300 ≤ 496 ∧ 300 ≤ 384) ∧
    (((createGLScreenGeometry true 496 384 300 300).xRes : ℤ) * 384 -
      ((createGLScreenGeometry true 496 384 300 300).yRes : ℤ) * 496).natAbs < 496 ∧
    (createGLScreenGeometry true 496 384 300 300).xOffset +
      (createGLScreenGeometry true 496 384 300 300).xRes ≤ 496 ∧
    (createGLScreenGeometry true 496 384 300 300).yOffset +
      (createGLScreenGeometry true 496 384 300 300).yRes ≤ 384 :=
  ⟨⟨by norm_num, by norm_num⟩,
   c3_aspect_and_offsets 496 384 300 300 (by norm_num) (by norm_num)⟩

/-! ## Helper lemmas: loop phases -/

theorem loadStateOp_framesRun (f : Option BlockFile) (m : Machine) :
    (loadStateOp f m).machine.framesRun = m.framesRun := by
  cases f with
  | none => rfl
  | some g =>
    unfold loadStateOp
    dsimp only
    split_ifs <;> rfl

theorem phaseFrame_of_paused (s : EmuState) (h : s.paused = true) :
    phaseFrame s = s := by
  unfold phaseFrame
  rw [h]
  rfl

theorem phaseFrame_quit (s : EmuState) : (phaseFrame s).quit = s.quit := by
  unfold phaseFrame; split <;> rfl

theorem phaseFrame_paused (s : EmuState) : (phaseFrame s).paused = s.paused := by
  unfold phaseFrame; split <;> rfl

theorem phaseFrame_fullScreen (s : EmuState) :
    (phaseFrame s).fullScreen = s.fullScreen := by
  unfold phaseFrame; split <;> rfl

theorem phaseFrame_showFPS (s : EmuState) :
    (phaseFrame s).showFPS = s.showFPS := by
  unfold phaseFrame; split <;> rfl

theorem phaseFrame_fpsFrames (s : EmuState) :
    (phaseFrame s).fpsFramesElapsed = s.fpsFramesElapsed := by
  unfold phaseFrame; split <;> rfl

theorem phaseFrame_prevFPS (s : EmuState) :
    (phaseFrame s).prevFPSTicks = s.prevFPSTicks := by
  unfold phaseFrame; split <;> rfl

theorem phaseFrame_nvramWrites (s : EmuState) :
    (phaseFrame s).nvramWrites = s.nvramWrites := by
  unfold phaseFrame; split <;> rfl

theorem phasePoll_paused (ok : Bool) (s : EmuState) :
    (phasePoll ok s).paused = s.paused := by
  cases ok <;> rfl

theorem phasePoll_fullScreen (ok : Bool) (s : EmuState) :
    (phasePoll ok s).fullScreen = s.fullScreen := by
  cases ok <;> rfl

theorem phasePoll_showFPS (ok : Bool) (s : EmuState) :
    (phasePoll ok s).showFPS = s.showFPS := by
  cases ok <;> rfl

theorem phasePoll_fpsFrames (ok : Bool) (s : EmuState) :
    (phasePoll ok s).fpsFramesElapsed = s.fpsFramesElapsed := by
  cases ok <;> rfl

theorem phasePoll_prevFPS (ok : Bool) (s : EmuState) :
    (phasePoll ok s).prevFPSTicks = s.prevFPSTicks := by
  cases ok <;> rfl

theorem phasePoll_nvramWrites (ok : Bool) (s : EmuState) :
    (phasePoll ok s).nvramWrites = s.nvramWrites := by
  cases ok <;> rfl

theorem phasePoll_machine (ok : Bool) (s : EmuState) :
    (phasePoll ok s).machine = s.machine := by
  cases ok <;> rfl

theorem phasePoll_buffers (ok : Bool) (s : EmuState) :
    (phasePoll ok s).buffersSwapped = s.buffersSwapped := by
  cases ok <;> rfl

theorem phasePoll_quit_mono (ok : Bool) (s : EmuState) (h : s.quit = true) :
    (phasePoll ok s).quit = true := by
  cases ok
  · rfl
  · exact h

theorem phasePoll_quit_false (s : EmuState) :
    (phasePoll false s).quit = true := rfl

theorem applyCmd_framesRun (k : Bool) (c : Cmd) (s : EmuState) :
    (applyCmd k c s).machine.framesRun = s.machine.framesRun := by
  cases c <;> cases k <;>
    first
      | rfl
      | exact loadStateOp_framesRun _ _

theorem applyCmd_fpsFrames (k : Bool) (c : Cmd) (s : EmuState) :
    (applyCmd k c s).fpsFramesElapsed = s.fpsFramesElapsed := by
  cases c <;> cases k <;> rfl

theorem applyCmd_prevFPS (k : Bool) (c : Cmd) (s : EmuState) :
    (applyCmd k c s).prevFPSTicks = s.prevFPSTicks := by
  cases c <;> cases k <;> rfl

theorem applyCmd_showFPS (k : Bool) (c : Cmd) (s : EmuState) :
    (applyCmd k c s).showFPS = s.showFPS := by
  cases c <;> cases k <;> rfl

theorem applyCmd_fullScreen (k : Bool) (c : Cmd) (s : EmuState) :
    (applyCmd k c s).fullScreen = s.fullScreen := by
  cases c <;> cases k <;> rfl

theorem applyCmd_nvramWrites (k : Bool) (c : Cmd) (s : EmuState) :
    (applyCmd k c s).nvramWrites = s.nvramWrites := by
  cases c <;> cases k <;> rfl

theorem applyCmd_buffers (k : Bool) (c : Cmd) (s : EmuState) :
    (applyCmd k c s).buffersSwapped = s.buffersSwapped := by
  cases c <;> cases k <;> rfl

theorem applyCmd_quit_mono (k : Bool) (c : Cmd) (s : EmuState)
    (h : s.quit = true) : (applyCmd k c s).quit = true := by
  cases c <;> cases k <;> first | rfl | exact h

theorem applyCmd_paused_of_ne (k : Bool) (c : Cmd) (s : EmuState)
    (h : c ≠ Cmd.togglePause) : (applyCmd k c s).paused = s.paused := by
  cases c <;> cases k <;> first | rfl | exact absurd rfl h

theorem applyCmd_pause_comm (k : Bool) (c : Cmd) (s : EmuState) (b : Bool)
    (h : c ≠ Cmd.togglePause) :
    applyCmd k c { s with paused := b } = { applyCmd k c s with paused := b } := by
  cases c <;> cases k <;> first | rfl | exact absurd rfl h

theorem phaseCmd_framesRun (e : Edges) (k : Bool) (s : EmuState) :
    (phaseCmd e k s).machine.framesRun = s.machine.framesRun := by
  unfold phaseCmd
  rcases h : selectCmd e s.fullScreen with _ | c <;> simp only [h]
  exact applyCmd_framesRun k c s

theorem phaseCmd_fpsFrames (e : Edges) (k : Bool) (s : EmuState) :
    (phaseCmd e k s).fpsFramesElapsed = s.fpsFramesElapsed := by
  unfold phaseCmd
  rcases h : selectCmd e s.fullScreen with _ | c <;> simp only [h]
  exact applyCmd_fpsFrames k c s

theorem phaseCmd_prevFPS (e : Edges) (k : Bool) (s : EmuState) :
    (phaseCmd e k s).prevFPSTicks = s.prevFPSTicks := by
  unfold phaseCmd
  rcases h : selectCmd e s.fullScreen with _ | c <;> simp only [h]
  exact applyCmd_prevFPS k c s

theorem phaseCmd_showFPS (e : Edges) (k : Bool) (s : EmuState) :
    (phaseCmd e k s).showFPS = s.showFPS := by
  unfold phaseCmd
  rcases h : selectCmd e s.fullScreen with _ | c <;> simp only [h]
  exact applyCmd_showFPS k c s

theorem phaseCmd_nvramWrites (e : Edges) (k : Bool) (s : EmuState) :
    (phaseCmd e k s).nvramWrites = s.nvramWrites := by
  unfold phaseCmd
  rcases h : selectCmd e s.fullScreen with _ | c <;> simp only [h]
  exact applyCmd_nvramWrites k c s

theorem phaseCmd_buffers (e : Edges) (k : Bool) (s : EmuState) :
    (phaseCmd e k s).buffersSwapped = s.buffersSwapped := by
  unfold phaseCmd
  rcases h : selectCmd e s.fullScreen with _ | c <;> simp only [h]
  exact applyCmd_buffers k c s

theorem phaseCmd_quit_mono (e : Edges) (k : Bool) (s : EmuState)
    (h : s.quit = true) : (phaseCmd e k s).quit = true := by
  unfold phaseCmd
  rcases hs : selectCmd e s.fullScreen with _ | c <;> simp only [hs]
  · exact h
  · exact applyCmd_quit_mono k c s h

theorem selectCmd_exit (e : Edges) (fs : Bool) (h : e.uiExit = true) :
    selectCmd e fs = some Cmd.exit := by
  unfold selectCmd
  rw [if_pos h]

theorem phaseCmd_exit_quit (e : Edges) (k : Bool) (s : EmuState)
    (h : e.uiExit = true) : (phaseCmd e k s).quit = true := by
  unfold phaseCmd
  simp only [selectCmd_exit e s.fullScreen h]
  rfl

theorem phaseCmd_toggle (e : Edges) (k : Bool) (s : EmuState)
    (h : selectCmd e s.fullScreen = some Cmd.togglePause) :
    (phaseCmd e k s).paused = !s.paused := by
  unfold phaseCmd
  simp only [h]
  rfl

theorem phaseFPS_quit (t : ℕ) (s : EmuState) : (phaseFPS t s).quit = s.quit := by
  unfold phaseFPS; split_ifs <;> rfl

theorem phaseFPS_paused (t : ℕ) (s : EmuState) :
    (phaseFPS t s).paused = s.paused := by
  unfold phaseFPS; split_ifs <;> rfl

theorem phaseFPS_machine (t : ℕ) (s : EmuState) :
    (phaseFPS t s).machine = s.machine := by
  unfold phaseFPS; split_ifs <;> rfl

theorem phaseFPS_buffers (t : ℕ) (s : EmuState) :
    (phaseFPS t s).buffersSwapped = s.buffersSwapped := by
  unfold phaseFPS; split_ifs <;> rfl

theorem phaseFPS_nvramWrites (t : ℕ) (s : EmuState) :
    (phaseFPS t s).nvramWrites = s.nvramWrites := by
  unfold phaseFPS; split_ifs <;> rfl

theorem phaseFPS_counter_of_lt (t : ℕ) (s : EmuState)
    (hshow : s.showFPS = true) (hlt : t - s.prevFPSTicks < 1000) :
    (phaseFPS t s).fpsFramesElapsed = s.fpsFramesElapsed + 1 := by
  unfold phaseFPS
  rw [hshow]
  rw [if_neg (Nat.not_le.mpr hlt)]
  rfl

theorem phasePace_quit (t : ℕ) (s : EmuState) :
    (phasePace t s).quit = s.quit := by
  unfold phasePace; dsimp only; split_ifs <;> rfl

theorem phasePace_paused (t : ℕ) (s : EmuState) :
    (phasePace t s).paused = s.paused := by
  unfold phasePace; dsimp only; split_ifs <;> rfl

theorem phasePace_machine (t : ℕ) (s : EmuState) :
    (phasePace t s).machine = s.machine := by
  unfold phasePace; dsimp only; split_ifs <;> rfl

theorem phasePace_buffers (t : ℕ) (s : EmuState) :
    (phasePace t s).buffersSwapped = s.buffersSwapped := by
  unfold phasePace; dsimp only; split_ifs <;> rfl

theorem phasePace_nvramWrites (t : ℕ) (s : EmuState) :
    (phasePace t s).nvramWrites = s.nvramWrites := by
  unfold phasePace; dsimp only; split_ifs <;> rfl

theorem phasePace_fpsFrames (t : ℕ) (s : EmuState) :
    (phasePace t s).fpsFramesElapsed = s.fpsFramesElapsed := by
  unfold phasePace; dsimp only; split_ifs <;> rfl

theorem step_nvramWrites (s : EmuState) (i : IterInput) :
    (step s i).nvramWrites = s.nvramWrites := by
  unfold step
  rw [phasePace_nvramWrites, phaseFPS_nvramWrites, phaseCmd_nvramWrites,
    phasePoll_nvramWrites, phaseFrame_nvramWrites]

theorem run_nvramWrites (l : List IterInput) (s : EmuState) :
    (run s l).nvramWrites = s.nvramWrites := by
  induction l generalizing s with
  | nil => rfl
  | cons i rest ih =>
    unfold run
    split
    · rfl
    · rw [ih (step s i), step_nvramWrites]

theorem step_quit_mono (s : EmuState) (i : IterInput) (h : s.quit = true) :
    (step s i).quit = true := by
  unfold step
  rw [phasePace_quit, phaseFPS_quit]
  exact phaseCmd_quit_mono _ _ _
    (phasePoll_quit_mono _ _ (by rw [phaseFrame_quit]; exact h))

/-! ## Claim C4 -/

theorem selectCmd_eq_find (e : Edges) (fs : Bool) :
    selectCmd e fs = ((cmdTable e fs).find? Prod.fst).map Prod.snd := by
  unfold selectCmd cmdTable
  split_ifs with h1 h2 h3 h4 h5 h6 h7 h8 h9 h10 <;>
    simp_all [List.find?] <;>
    cases hc : e.uiToggleCursor <;> cases hfs : fs <;> simp_all

theorem phaseCmd_pause_comm (e : Edges) (k : Bool) (s : EmuState) (b : Bool)
    (h : selectCmd e s.fullScreen ≠ some Cmd.togglePause) :
    phaseCmd e k { s with paused := b } =
      { phaseCmd e k s with paused := b } := by
  unfold phaseCmd
  have hfs : ({ s with paused := b } : EmuState).fullScreen = s.fullScreen := rfl
  rw [hfs]
  rcases hsel : selectCmd e s.fullScreen with _ | c <;> simp only [hsel]
  exact applyCmd_pause_comm k c s b (fun hc => h (by rw [hsel, hc]))

/-- Claim C4: per loop iteration the else-if chain applies at most one UI
command, the one whose edge comes first in the fixed priority order Exit,
Reset, TogglePause, SaveState, ChangeSlot, LoadState, DumpInputState,
ToggleCursor (honored only while fullscreen), ClearNVRAM, ToggleThrottle
(the chain equals the first hit of the ordered command table), and every
command other than TogglePause has the same effect whether the session is
Running or Paused, so commands are never gated by pause. -/
theorem c4_priority_and_pause_independence :
    (∀ e fs, selectCmd e fs = ((cmdTable e fs).find? Prod.fst).map Prod.snd) ∧
    (∀ k c s b, c ≠ Cmd.togglePause →
      applyCmd k c { s with paused := b } =
        { applyCmd k c s with paused := b }) ∧
    (∀ e k s b, selectCmd e s.fullScreen ≠ some Cmd.togglePause →
      phaseCmd e k { s with paused := b } =
        { phaseCmd e k s with paused := b }) :=
  ⟨selectCmd_eq_find,
   fun k c s b h => applyCmd_pause_comm k c s b h,
   fun e k s b h => phaseCmd_pause_comm e k s b h⟩

theorem c4_witness :
    (Cmd.save ≠ Cmd.togglePause) ∧
    applyCmd true Cmd.save { sampleState with paused := true } =
      { applyCmd true Cmd.save sampleState with paused := true } :=
  ⟨by decide,
   c4_priority_and_pause_independence.2.1 true Cmd.save sampleState true
     (by decide)⟩

/-! ## Claim C5 -/

/-- Claim C5: while pacing is active (Paused or throttled), with the target
tick equal to epoch start plus (frame index) x 1000/60 ms, a current tick
at or before the target blocks for exactly target minus current and keeps
the epoch, while an overshoot resets the epoch start to the current tick,
zeroes the frame index and does not block; after such a reset the very
next pacing step still blocks whenever it lands within one frame interval
of the reset tick, so a stall is never followed by more than one catch-up
frame. -/
theorem c5_pacing (s : EmuState) (t : ℕ)
    (hact : (s.paused || s.throttle) = true) :
    (t ≤ frameTarget s.startTicks (s.framesElapsed + 1) →
      (phasePace t s).lastDelay =
        some (frameTarget s.startTicks (s.framesElapsed + 1) - t) ∧
      (phasePace t s).startTicks = s.startTicks ∧
      (phasePace t s).framesElapsed = s.framesElapsed + 1) ∧
    (frameTarget s.startTicks (s.framesElapsed + 1) < t →
      (phasePace t s).lastDelay = none ∧
      (phasePace t s).startTicks = t ∧
      (phasePace t s).framesElapsed = 0 ∧
      (∀ u, u ≤ frameTarget t 1 →
        (phasePace u (phasePace t s)).lastDelay =
          some (frameTarget t 1 - u))) := by
  constructor
  · intro hle
    unfold phasePace
    rw [if_pos hact]
    dsimp only
    rw [if_pos hle]
    exact ⟨rfl, rfl, rfl⟩
  · intro hgt
    have hreset : phasePace t s =
        { s with framesElapsed := 0, startTicks := t, lastDelay := none } := by
      unfold phasePace
      rw [if_pos hact]
      dsimp only
      rw [if_neg (Nat.not_le.mpr hgt)]
    refine ⟨by rw [hreset], by rw [hreset], by rw [hreset], ?_⟩
    intro u hu
    rw [hreset]
    unfold phasePace
    rw [if_pos hact]
    dsimp only
    rw [Nat.zero_add]
    rw [if_pos hu]

theorem c5_witness :
    ((sampleThrottled.paused || sampleThrottled.throttle) = true) ∧
    (100 ≤ frameTarget sampleThrottled.startTicks
      (sampleThrottled.framesElapsed + 1) →
      (phasePace 100 sampleThrottled).lastDelay =
        some (frameTarget sampleThrottled.startTicks
          (sampleThrottled.framesElapsed + 1) - 100) ∧
      (phasePace 100 sampleThrottled).startTicks =
        sampleThrottled.startTicks ∧
      (phasePace 100 sampleThrottled).framesElapsed =
        sampleThrottled.framesElapsed + 1) :=
  ⟨rfl, (c5_pacing sampleThrottled 100 rfl).1⟩

/-! ## Claim C6 -/

theorem nextSlot_iterate_ten : ∀ v, v < 10 → nextSlot^[10] v = v := by
  decide

theorem applyCmd_changeSlot_iterate (k : Bool) (n : ℕ) (s : EmuState) :
    ((fun st => applyCmd k Cmd.changeSlot st)^[n] s).saveSlot =
      nextSlot^[n] s.saveSlot := by
  induction n generalizing s with
  | zero => rfl
  | succ n ih =>
    rw [Function.iterate_succ_apply, Function.iterate_succ_apply]
    exact ih _

/-- Claim C6: ChangeSlot sets the slot to (slot + 1) mod 10, which always
lies in [0,9]; ten ChangeSlot applications return a slot below 10 to its
original value; and in the scenario starting from slot 0 with a valid save
of payload 99 already in slot 0, three ChangeSlots, a SaveState (writing
the machine payload 42 at slot 3), seven more ChangeSlots and a LoadState
make the load read slot 0 (payload 99), not slot 3 (payload 42). -/
theorem c6_slot_wraparound (k : Bool) (s : EmuState) (v : ℕ) :
    ((applyCmd k Cmd.changeSlot s).saveSlot = (s.saveSlot + 1) % 10) ∧
    ((applyCmd k Cmd.changeSlot s).saveSlot < 10) ∧
    (v < 10 → nextSlot^[10] v = v) ∧
    (s.saveSlot < 10 →
      ((fun st => applyCmd k Cmd.changeSlot st)^[10] s).saveSlot =
        s.saveSlot) ∧
    (run slotScenarioStart slotScenarioScript).machine.state = 99 ∧
    (run slotScenarioStart slotScenarioScript).saveSlot = 0 ∧
    (run slotScenarioStart slotScenarioScript).saveFiles 3 =
      some ⟨["Supermodel Save State"], stateFileVersion, 42⟩ := by
  refine ⟨rfl, Nat.mod_lt _ (by norm_num), nextSlot_iterate_ten v, ?_, ?_, ?_, ?_⟩
  · intro hs
    rw [applyCmd_changeSlot_iterate]
    exact nextSlot_iterate_ten _ hs
  · rfl
  · rfl
  · rfl

theorem c6_witness :
    (3 < 10) ∧ nextSlot^[10] 3 = 3 :=
  ⟨by norm_num, (c6_slot_wraparound true sampleState 3).2.2.1 (by norm_num)⟩

/-! ## Claim C7 -/

theorem step_toggle_paused (s : EmuState) (i : IterInput)
    (h : selectCmd i.edges s.fullScreen = some Cmd.togglePause) :
    (step s i).paused = !s.paused := by
  unfold step
  rw [phasePace_paused, phaseFPS_paused]
  have hfs : (phasePoll i.pollOK (phaseFrame s)).fullScreen = s.fullScreen := by
    rw [phasePoll_fullScreen, phaseFrame_fullScreen]
  rw [phaseCmd_toggle _ _ _ (by rw [hfs]; exact h)]
  rw [phasePoll_paused, phaseFrame_paused]

theorem step_quit_of_pollfail (s : EmuState) (i : IterInput)
    (h : i.pollOK = false) : (step s i).quit = true := by
  unfold step
  rw [phasePace_quit, phaseFPS_quit]
  apply phaseCmd_quit_mono
  rw [h]
  exact phasePoll_quit_false _

theorem step_quit_of_exit (s : EmuState) (i : IterInput)
    (h : i.edges.uiExit = true) : (step s i).quit = true := by
  unfold step
  rw [phasePace_quit, phaseFPS_quit]
  exact phaseCmd_exit_quit _ _ _ h

theorem run_of_quit (s : EmuState) (l : List IterInput) (h : s.quit = true) :
    run s l = s := by
  cases l with
  | nil => rfl
  | cons i rest =>
    unfold run
    rw [if_pos h]

/-- Claim C7: the session starts Running (quit and paused both clear); a
selected TogglePause command flips Running and Paused; a failed input poll
or an asserted Exit edge sets quit from any state; an iteration never
clears quit once set; and once quit is set, the loop performs no further
iterations. -/
theorem c7_session_state_machine :
    (∀ thr fps fs slot m files t0,
      (initialLoopState thr fps fs slot m files t0).quit = false ∧
      (initialLoopState thr fps fs slot m files t0).paused = false) ∧
    (∀ s i, selectCmd i.edges s.fullScreen = some Cmd.togglePause →
      (step s i).paused = !s.paused) ∧
    (∀ s i, i.pollOK = false → (step s i).quit = true) ∧
    (∀ s i, i.edges.uiExit = true → (step s i).quit = true) ∧
    (∀ s i, s.quit = true → (step s i).quit = true) ∧
    (∀ s l, s.quit = true → run s l = s) :=
  ⟨fun _ _ _ _ _ _ _ => ⟨rfl, rfl⟩,
   step_toggle_paused, step_quit_of_pollfail, step_quit_of_exit,
   step_quit_mono, run_of_quit⟩

theorem c7_witness :
    ((⟨noEdges, false, true, 0⟩ : IterInput).pollOK = false) ∧
    (step sampleState ⟨noEdges, false, true, 0⟩).quit = true :=
  ⟨rfl,
   c7_session_state_machine.2.2.1 sampleState ⟨noEdges, false, true, 0⟩ rfl⟩

/-! ## Claim C8 -/

/-- Claim C8: with FPS display enabled, exactly when at least 1000 ms have
elapsed since the previous sample the displayed rate is set to frames
times elapsed milliseconds divided by 1000 (so frames times elapsed
seconds, not frames divided by elapsed seconds), the caption is updated
and both the sample tick and the frame counter reset; below 1000 ms the
counter accumulates and nothing else changes. -/
theorem c8_fps_window (s : EmuState) (t : ℕ) (hshow : s.showFPS = true) :
    (1000 ≤ t - s.prevFPSTicks →
      (phaseFPS t s).lastFPS =
        some (((s.fpsFramesElapsed + 1 : ℕ) : ℚ) *
          ((t - s.prevFPSTicks : ℕ) : ℚ) / 1000) ∧
      (phaseFPS t s).captionUpdates = s.captionUpdates + 1 ∧
      (phaseFPS t s).prevFPSTicks = t ∧
      (phaseFPS t s).fpsFramesElapsed = 0) ∧
    (t - s.prevFPSTicks < 1000 →
      (phaseFPS t s).fpsFramesElapsed = s.fpsFramesElapsed + 1 ∧
      (phaseFPS t s).captionUpdates = s.captionUpdates ∧
      (phaseFPS t s).prevFPSTicks = s.prevFPSTicks ∧
      (phaseFPS t s).lastFPS = s.lastFPS) := by
  constructor
  · intro hge
    unfold phaseFPS
    rw [if_pos hshow]
    dsimp only
    rw [if_pos hge]
    exact ⟨rfl, rfl, rfl, rfl⟩
  · intro hlt
    unfold phaseFPS
    rw [if_pos hshow]
    dsimp only
    rw [if_neg (Nat.not_le.mpr hlt)]
    exact ⟨rfl, rfl, rfl, rfl⟩

theorem c8_witness :
    (sampleFPSState.showFPS = true) ∧
    (1500 - sampleFPSState.prevFPSTicks < 1000 → True) ∧
    ((phaseFPS 2000 sampleFPSState).lastFPS =
        some (((sampleFPSState.fpsFramesElapsed + 1 : ℕ) : ℚ) *
          ((2000 - sampleFPSState.prevFPSTicks : ℕ) : ℚ) / 1000) ∧
      (phaseFPS 2000 sampleFPSState).captionUpdates =
        sampleFPSState.captionUpdates + 1 ∧
      (phaseFPS 2000 sampleFPSState).prevFPSTicks = 2000 ∧
      (phaseFPS 2000 sampleFPSState).fpsFramesElapsed = 0) :=
  ⟨rfl, fun _ => trivial,
   (c8_fps_window sampleFPSState 2000 rfl).1 (by decide)⟩

/-! ## Claim C10 -/

/-- Claim C10: with FPS display enabled, a Paused iteration runs no
emulated frame and presents nothing, yet still increments the FPS frame
counter (when no sample reset fires), so the displayed rate measures loop
iterations per second, not emulated frames per second. -/
theorem c10_fps_counts_iterations (s : EmuState) (i : IterInput)
    (hp : s.paused = true) (hshow : s.showFPS = true) :
    (step s i).machine.framesRun = s.machine.framesRun ∧
    (step s i).buffersSwapped = s.buffersSwapped ∧
    (i.ticks - s.prevFPSTicks < 1000 →
      (step s i).fpsFramesElapsed = s.fpsFramesElapsed + 1) := by
  unfold step
  rw [phaseFrame_of_paused s hp]
  refine ⟨?_, ?_, ?_⟩
  · rw [phasePace_machine, phaseFPS_machine, phaseCmd_framesRun,
      phasePoll_machine]
  · rw [phasePace_buffers, phaseFPS_buffers, phaseCmd_buffers,
      phasePoll_buffers]
  · intro hlt
    rw [phasePace_fpsFrames]
    have h1 : (phaseCmd i.edges i.createOK (phasePoll i.pollOK s)).showFPS =
        true := by
      rw [phaseCmd_showFPS, phasePoll_showFPS]; exact hshow
    have h2 : (phaseCmd i.edges i.createOK
        (phasePoll i.pollOK s)).prevFPSTicks = s.prevFPSTicks := by
      rw [phaseCmd_prevFPS, phasePoll_prevFPS]
    have h3 : (phaseCmd i.edges i.createOK
        (phasePoll i.pollOK s)).fpsFramesElapsed = s.fpsFramesElapsed := by
      rw [phaseCmd_fpsFrames, phasePoll_fpsFrames]
    rw [phaseFPS_counter_of_lt _ _ h1 (by rw [h2]; exact hlt), h3]

theorem c10_witness :
    (samplePausedFPS.paused = true) ∧
    (samplePausedFPS.showFPS = true) ∧
    (step samplePausedFPS (edgeInput noEdges)).machine.framesRun =
      samplePausedFPS.machine.framesRun :=
  ⟨rfl, rfl,
   (c10_fps_counts_iterations samplePausedFPS (edgeInput noEdges) rfl rfl).1⟩

/-! ## Claim C1 -/

/-- Claim C1 counterexample: when Render2D initialization fails after audio
was opened, Supermodel() exits through QuitError having deleted the
renderers but with zero NVRAM saves and audio left open, so NVRAM is not
persisted exactly once and not all acquired resources are released on this
exit path. -/
theorem c1_counterexample :
    supermodelDriver false false false ⟨true, true, true, true, false, true⟩
      none (fun _ => none) 0 [] =
      some ⟨0, true, false, true, true, 1⟩ := rfl

/-- Claim C1 (amended): when every initialization step succeeds and the
session ends through the main loop (normal Quit or device-loss Quit),
NVRAM is saved exactly once and the audio and renderer resources are
released with exit code 0; on a renderer-initialization failure the
QuitError path deletes both renderers but saves NVRAM zero times and
leaves the opened audio subsystem unclosed. -/
theorem c1_nvram_once_and_cleanup :
    (∀ thr fps fs nv files t0 script e,
      supermodelDriver thr fps fs ⟨true, true, true, true, true, true⟩ nv
        files t0 script = some e →
      e.nvramSaves = 1 ∧ e.audioOpened = true ∧ e.audioClosed = true ∧
      e.render2DDeleted = true ∧ e.render3DDeleted = true ∧
      e.exitCode = 0) ∧
    (∀ thr fps fs r2 r3 nv files t0 script e, (r2 = false ∨ r3 = false) →
      supermodelDriver thr fps fs ⟨true, true, true, true, r2, r3⟩ nv files
        t0 script = some e →
      e.nvramSaves = 0 ∧ e.audioOpened = true ∧ e.audioClosed = false ∧
      e.render2DDeleted = true ∧ e.render3DDeleted = true ∧
      e.exitCode = 1) := by
  constructor
  · intro thr fps fs nv files t0 script e h
    unfold supermodelDriver at h
    simp only [Bool.true_eq_false, if_false] at h
    split at h
    · have he : e = ⟨(run (initialLoopState thr fps fs 0
          (resetMachine (loadNVRAMOp nv ⟨0, 0, 0, 0⟩).machine) files t0)
            script).nvramWrites + 1, true, true, true, true, 0⟩ :=
        (Option.some_inj.mp h).symm
      rw [he]
      refine ⟨?_, rfl, rfl, rfl, rfl, rfl⟩
      rw [run_nvramWrites]
      rfl
    · exact absurd h (by simp)
  · intro thr fps fs r2 r3 nv files t0 script e hr h
    unfold supermodelDriver at h
    rcases hr with hr | hr
    · subst hr
      simp only [Bool.true_eq_false, if_false, if_true] at h
      have he : e = ⟨0, true, false, true, true, 1⟩ :=
        (Option.some_inj.mp h).symm
      rw [he]
      exact ⟨rfl, rfl, rfl, rfl, rfl, rfl⟩
    · subst hr
      cases r2 with
      | false =>
        simp only [Bool.true_eq_false, if_false, if_true] at h
        have he : e = ⟨0, true, false, true, true, 1⟩ :=
          (Option.some_inj.mp h).symm
        rw [he]
        exact ⟨rfl, rfl, rfl, rfl, rfl, rfl⟩
      | true =>
        simp only [Bool.true_eq_false, if_false, if_true] at h
        have he : e = ⟨0, true, false, true, true, 1⟩ :=
          (Option.some_inj.mp h).symm
        rw [he]
        exact ⟨rfl, rfl, rfl, rfl, rfl, rfl⟩

theorem c1_witness :
    (supermodelDriver false false false ⟨true, true, true, true, true, true⟩
      none (fun _ => none) 0 [exitInput] =
      some ⟨1, true, true, true, true, 0⟩) ∧
    ((⟨1, true, true, true, true, 0⟩ : SessionEffects).nvramSaves = 1 ∧
      (⟨1, true, true, true, true, 0⟩ : SessionEffects).audioOpened = true ∧
      (⟨1, true, true, true, true, 0⟩ : SessionEffects).audioClosed = true ∧
      (⟨1, true, true, true, true, 0⟩ : SessionEffects).render2DDeleted = true ∧
      (⟨1, true, true, true, true, 0⟩ : SessionEffects).render3DDeleted = true ∧
      (⟨1, true, true, true, true, 0⟩ : SessionEffects).exitCode = 0) :=
  ⟨rfl,
   c1_nvram_once_and_cleanup.1 false false false none (fun _ => none) 0
     [exitInput] ⟨1, true, true, true, true, 0⟩ rfl⟩

end SupermodelMain
